import Mathlib

/-!
Verification of the Veo Creative Studio core logic against its specification.

The development shallowly embeds `src/services/geminiService.ts`:
bytes are `Nat` values below 256, byte buffers are `List Nat`, JavaScript
falsy-or-string values are `Option String`, promise rejection is
`Except String`, and the external provider (submit / poll / generateContent)
is passed in as an explicit oracle.  Emitted progress callbacks, timer waits
and provider calls are recorded in an event trace.
-/

namespace VeoStudio

/-- Little-endian 16-bit write, as `DataView.setUint16(_, n, true)`:
the value is truncated to 16 bits and stored low byte first. -/
def le16 (n : Nat) : List Nat :=
  [n % 256, n / 256 % 256]

/-- Little-endian 32-bit write, as `DataView.setUint32(_, n, true)`:
the value is truncated to 32 bits and stored low byte first. -/
def le32 (n : Nat) : List Nat :=
  [n % 256, n / 256 % 256, n / 65536 % 256, n / 16777216 % 256]

/-- `writeString(view, off, s)` stores the UTF-16 code unit of each character;
for the ASCII tags used here that is the code point. -/
def strBytes (s : String) : List Nat :=
  s.toList.map Char.toNat

/-- The 44-byte RIFF/WAVE header built by `pcmToWav` for a payload of
`dataSize` bytes at `sampleRate`, field by field in source order:
"RIFF", file size `36 + dataSize`, "WAVE", "fmt ", sub-chunk size 16,
audio format 1, channels 1, sample rate, byte rate, block align 2,
bits per sample 16, "data", data size. -/
def wavHeader (dataSize sampleRate : Nat) : List Nat :=
  let numChannels := 1
  let bitsPerSample := 16
  let blockAlign := numChannels * bitsPerSample / 8
  let byteRate := sampleRate * blockAlign
  let fileSize := 36 + dataSize
  strBytes "RIFF" ++ le32 fileSize ++ strBytes "WAVE" ++
  strBytes "fmt " ++ le32 16 ++ le16 1 ++ le16 numChannels ++
  le32 sampleRate ++ le32 byteRate ++ le16 blockAlign ++ le16 bitsPerSample ++
  strBytes "data" ++ le32 dataSize ++ []

/-- `pcmToWav(pcmData, sampleRate)`: a fresh 44-byte header followed by the
PCM payload, as in `new Blob([header, pcmData])`. -/
def pcmToWav (pcmData : List Nat) (sampleRate : Nat) : List Nat :=
  wavHeader pcmData.length sampleRate ++ pcmData

/-- Read back a little-endian 16-bit field at byte offset `off`. -/
def readLE16 (bs : List Nat) (off : Nat) : Nat :=
  bs.getD off 0 + 256 * bs.getD (off + 1) 0

/-- Read back a little-endian 32-bit field at byte offset `off`. -/
def readLE32 (bs : List Nat) (off : Nat) : Nat :=
  bs.getD off 0 + 256 * bs.getD (off + 1) 0 +
  65536 * bs.getD (off + 2) 0 + 16777216 * bs.getD (off + 3) 0

lemma wavHeader_cons (ds r : Nat) :
    wavHeader ds r =
      82 :: 73 :: 70 :: 70 ::
      (36 + ds) % 256 :: (36 + ds) / 256 % 256 ::
      (36 + ds) / 65536 % 256 :: (36 + ds) / 16777216 % 256 ::
      87 :: 65 :: 86 :: 69 ::
      102 :: 109 :: 116 :: 32 ::
      16 :: 0 :: 0 :: 0 ::
      1 :: 0 ::
      1 :: 0 ::
      r % 256 :: r / 256 % 256 :: r / 65536 % 256 :: r / 16777216 % 256 ::
      r * 2 % 256 :: r * 2 / 256 % 256 ::
      r * 2 / 65536 % 256 :: r * 2 / 16777216 % 256 ::
      2 :: 0 ::
      16 :: 0 ::
      100 :: 97 :: 116 :: 97 ::
      ds % 256 :: ds / 256 % 256 :: ds / 65536 % 256 :: ds / 16777216 % 256 :: [] := by
  simp [wavHeader, strBytes, le16, le32]

lemma wavHeader_length (ds r : Nat) : (wavHeader ds r).length = 44 := by
  rw [wavHeader_cons]
  rfl

example : pcmToWav [0, 1] 24000 =
    [82, 73, 70, 70, 38, 0, 0, 0, 87, 65, 86, 69,
     102, 109, 116, 32, 16, 0, 0, 0, 1, 0, 1, 0,
     192, 93, 0, 0, 128, 187, 0, 0, 2, 0, 16, 0,
     100, 97, 116, 97, 2, 0, 0, 0, 0, 1] := by decide

/-! ## The video-generation service -/

/-- JavaScript truthiness on an optional string: `undefined` and the empty
string are falsy, every other string is truthy. -/
def truthy : Option String → Option String
  | none => none
  | some s => if s = "" then none else some s

/-- The JavaScript expression `a || b` on optional strings: `b` whenever `a`
is falsy, otherwise `a`. -/
def jsOr (a b : Option String) : Option String :=
  match truthy a with
  | some s => some s
  | none => b

/-- String interpolation of a possibly-undefined value, as in a JS template
literal: `undefined` prints as "undefined". -/
def stringify : Option String → String
  | some s => s
  | none => "undefined"

def keyErrorMsg : String :=
  "API Key not found. Please select a project or enter a key in settings."

/-- `getAiClient(explicitKey)`: `explicitKey || process.env.API_KEY`, throwing
`keyErrorMsg` when the result is falsy; the client is represented by the key
it was built from. -/
def getAiClient (explicitKey envKey : Option String) : Except String String :=
  match truthy (jsOr explicitKey envKey) with
  | none => .error keyErrorMsg
  | some k => .ok k

/-- The `error` field of a video operation: an object with an optional
`message`, or absent. -/
structure OpErr where
  message : Option String
deriving DecidableEq, Repr

/-- A long-running video operation as `generateVeoVideo` reads it: the `done`
flag, the optional `error` field, and the value of the optional chain
`response?.generatedVideos?.[0]?.video?.uri`. -/
structure Operation where
  done : Bool
  error : Option OpErr
  videoUri : Option String
deriving DecidableEq, Repr

/-- Observable steps of a run: a progress callback, a timer wait (ms), the
submission request, a poll request, or a `generateContent` request. -/
inductive Event where
  | progress (msg : String)
  | wait (ms : Nat)
  | submitCall
  | pollCall
  | genContentCall
deriving DecidableEq, Repr

def isPollCall : Event → Bool
  | .pollCall => true
  | _ => false

def countPolls (evs : List Event) : Nat :=
  (evs.filter isPollCall).length

/-- One iteration of the polling loop body emits: the 5000 ms wait, the
"Still rendering..." progress callback, then the poll request. -/
def loopBlock : List Event :=
  [.wait 5000, .progress "Still rendering...", .pollCall]

/-- The `while (!operation.done)` loop: wait 5 s, emit progress, refresh the
operation via `poll` (reading successive responses `poll 0`, `poll 1`, ...).
`fuel` bounds the number of iterations modelled; `none` means the loop did
not terminate within `fuel` iterations.  A thrown poll error ends the run. -/
def pollLoop (poll : Nat → Except String Operation) (fuel idx : Nat)
    (op : Operation) : Option (Except String Operation × List Event) :=
  if op.done then some (.ok op, [])
  else
    match fuel with
    | 0 => none
    | fuel' + 1 =>
      match poll idx with
      | .error e => some (.error e, loopBlock)
      | .ok op2 =>
        match pollLoop poll fuel' (idx + 1) op2 with
        | none => none
        | some (r, evs) => some (r, loopBlock ++ evs)

/-- The three events preceding the polling loop: the "Initializing" progress
callback, the submission, and the "Rendering video..." progress callback. -/
def preLoop : List Event :=
  [.progress "Initializing video generation...", .submitCall,
   .progress "Rendering video... This may take a moment."]

/-- `generateVeoVideo`: check the key, emit progress, submit, emit progress,
poll until done, then reject on the operation's `error` field (with its
message, defaulting to "Video generation failed"), reject when no truthy
video URI is present (the falsy `!videoUri` check: the URI is absent or the
empty string), and otherwise resolve with the URI plus `&key=` and the
effective key.  The provider is the pair (`submit`, `poll`); the result is
`none` when the loop exceeds `fuel`, otherwise the settled promise together
with the event trace. -/
def generateVeoVideo (apiKey envKey : Option String)
    (submit : Except String Operation) (poll : Nat → Except String Operation)
    (fuel : Nat) : Option (Except String String × List Event) :=
  match getAiClient apiKey envKey with
  | .error e => some (.error e, [])
  | .ok _ =>
    match submit with
    | .error e => some (.error e, [.progress "Initializing video generation...", .submitCall])
    | .ok op0 =>
      match pollLoop poll fuel 0 op0 with
      | none => none
      | some (.error e, evs) => some (.error e, preLoop ++ evs)
      | some (.ok opF, evs) =>
        match opF.error with
        | some err =>
          some (.error ((truthy err.message).getD "Video generation failed"), preLoop ++ evs)
        | none =>
          match truthy opF.videoUri with
          | none => some (.error "No video URI returned from the API.", preLoop ++ evs)
          | some uri =>
            some (.ok (uri ++ "&key=" ++ stringify (jsOr apiKey envKey)), preLoop ++ evs)

def runResult (r : Option (Except String String × List Event)) :
    Option (Except String String) :=
  r.map Prod.fst

def runEvents (r : Option (Except String String × List Event)) :
    Option (List Event) :=
  r.map Prod.snd

/-- `enhancePrompt`: check the key, call `generateContent`, return
`response.text || input`.  The provider response (its optional `text`
field, or a thrown error) is the oracle `genContent`. -/
def enhancePrompt (apiKey envKey : Option String) (input : String)
    (genContent : Except String (Option String)) :
    Except String String × List Event :=
  match getAiClient apiKey envKey with
  | .error e => (.error e, [])
  | .ok _ =>
    match genContent with
    | .error e => (.error e, [.genContentCall])
    | .ok text => (.ok ((truthy text).getD input), [.genContentCall])

/-- `decodeAudio`: `atob` the base64 string (an external browser primitive,
passed as an oracle) and take the code of each character of the resulting
binary string. -/
def decodeAudioBytes (atobFn : String → String) (base64String : String) :
    List Nat :=
  (atobFn base64String).toList.map Char.toNat

/-- `generateTextToSpeech`: check the key, call `generateContent`; the oracle
yields `candidates?.[0]?.content?.parts?.[0]?.inlineData?.data`.  Reject with
"No audio data generated." when that is falsy, else decode, wrap with
`pcmToWav` at 24000 Hz, and resolve with an object URL for the blob
(`createURL` is the external `URL.createObjectURL`). -/
def generateTextToSpeech (apiKey envKey : Option String)
    (genContent : Except String (Option String))
    (atobFn : String → String) (createURL : List Nat → String) :
    Except String String × List Event :=
  match getAiClient apiKey envKey with
  | .error e => (.error e, [])
  | .ok _ =>
    match genContent with
    | .error e => (.error e, [.genContentCall])
    | .ok data =>
      match truthy data with
      | none => (.error "No audio data generated.", [.genContentCall])
      | some base64Audio =>
        let audioBytes := decodeAudioBytes atobFn base64Audio
        (.ok (createURL (pcmToWav audioBytes 24000)), [.genContentCall])

/-- `generateClonedSpeech`: same key check, provider call and audio pipeline
as `generateTextToSpeech`, with the reference clip included in the request. -/
def generateClonedSpeech (apiKey envKey : Option String)
    (genContent : Except String (Option String))
    (atobFn : String → String) (createURL : List Nat → String) :
    Except String String × List Event :=
  match getAiClient apiKey envKey with
  | .error e => (.error e, [])
  | .ok _ =>
    match genContent with
    | .error e => (.error e, [.genContentCall])
    | .ok data =>
      match truthy data with
      | none => (.error "No audio data generated.", [.genContentCall])
      | some base64Audio =>
        let audioBytes := decodeAudioBytes atobFn base64Audio
        (.ok (createURL (pcmToWav audioBytes 24000)), [.genContentCall])

/-! ## General lemmas about the polling loop -/

lemma pollLoop_done (poll : Nat → Except String Operation) (fuel idx : Nat)
    (op opF : Operation) (evs : List Event)
    (h : pollLoop poll fuel idx op = some (.ok opF, evs)) : opF.done = true := by
  induction fuel generalizing idx op evs with
  | zero =>
    rw [pollLoop] at h
    by_cases hd : op.done
    · simp [hd] at h
      rcases h with ⟨h1, _⟩
      rw [← h1]
      exact hd
    · simp [hd] at h
  | succ fuel' ih =>
    rw [pollLoop] at h
    by_cases hd : op.done
    · simp [hd] at h
      rcases h with ⟨h1, _⟩
      rw [← h1]
      exact hd
    · simp [hd] at h
      cases hp : poll idx with
      | error e => rw [hp] at h; simp at h
      | ok op2 =>
        rw [hp] at h
        dsimp only at h
        cases hr : pollLoop poll fuel' (idx + 1) op2 with
        | none => rw [hr] at h; simp at h
        | some pr =>
          rw [hr] at h
          obtain ⟨r, evs2⟩ := pr
          simp at h
          rcases h with ⟨h1, _⟩
          exact ih (idx + 1) op2 evs2 (by rw [hr, h1])

lemma pollLoop_error (poll : Nat → Except String Operation) (fuel idx : Nat)
    (op : Operation) (e : String) (evs : List Event)
    (h : pollLoop poll fuel idx op = some (.error e, evs)) :
    ∃ i, poll i = .error e := by
  induction fuel generalizing idx op evs with
  | zero =>
    rw [pollLoop] at h
    by_cases hd : op.done <;> simp [hd] at h
  | succ fuel' ih =>
    rw [pollLoop] at h
    by_cases hd : op.done
    · simp [hd] at h
    · simp [hd] at h
      cases hp : poll idx with
      | error e2 =>
        rw [hp] at h
        simp at h
        exact ⟨idx, by rw [hp, h.1]⟩
      | ok op2 =>
        rw [hp] at h
        dsimp only at h
        cases hr : pollLoop poll fuel' (idx + 1) op2 with
        | none => rw [hr] at h; simp at h
        | some pr =>
          rw [hr] at h
          obtain ⟨r, evs2⟩ := pr
          simp at h
          rcases h with ⟨h1, _⟩
          exact ih (idx + 1) op2 evs2 (by rw [hr, ← h1])

lemma pollLoop_trace (poll : Nat → Except String Operation) (fuel idx : Nat)
    (op : Operation) (r : Except String Operation) (evs : List Event)
    (h : pollLoop poll fuel idx op = some (r, evs)) :
    ∃ k, evs = (List.replicate k loopBlock).flatten := by
  induction fuel generalizing idx op evs r with
  | zero =>
    rw [pollLoop] at h
    by_cases hd : op.done
    · simp [hd] at h
      exact ⟨0, by simp [h.2.symm]⟩
    · simp [hd] at h
  | succ fuel' ih =>
    rw [pollLoop] at h
    by_cases hd : op.done
    · simp [hd] at h
      exact ⟨0, by simp [h.2.symm]⟩
    · simp [hd] at h
      cases hp : poll idx with
      | error e2 =>
        rw [hp] at h
        simp at h
        exact ⟨1, by simp [h.2.symm]⟩
      | ok op2 =>
        rw [hp] at h
        dsimp only at h
        cases hr : pollLoop poll fuel' (idx + 1) op2 with
        | none => rw [hr] at h; simp at h
        | some pr =>
          rw [hr] at h
          obtain ⟨r2, evs2⟩ := pr
          simp at h
          obtain ⟨k, hk⟩ := ih (idx + 1) op2 r2 evs2 hr
          refine ⟨k + 1, ?_⟩
          rw [← h.2, hk]
          simp [List.replicate_succ]

/-! ## WAV encoder lemmas -/

lemma le32_read (n : Nat) (h : n < 4294967296) :
    n % 256 + 256 * (n / 256 % 256) + 65536 * (n / 65536 % 256) +
      16777216 * (n / 16777216 % 256) = n := by
  omega

lemma wavHeader_bytes_lt (ds r : Nat) : ∀ b ∈ wavHeader ds r, b < 256 := by
  intro b hb
  rw [wavHeader_cons] at hb
  simp only [List.mem_cons, List.not_mem_nil, or_false] at hb
  rcases hb with rfl|rfl|rfl|rfl|rfl|rfl|rfl|rfl|rfl|rfl|rfl|rfl|rfl|rfl|rfl|rfl|
    rfl|rfl|rfl|rfl|rfl|rfl|rfl|rfl|rfl|rfl|rfl|rfl|rfl|rfl|rfl|rfl|rfl|rfl|rfl|
    rfl|rfl|rfl|rfl|rfl|rfl|rfl|rfl|rfl <;> omega

/-! ## Claim theorems: WAV encoder -/

/-- C4: the 44-byte header written by `pcmToWav(pcm, r)` carries, little
endian: RIFF size `36 + len pcm` at bytes 4-7, fmt sub-chunk size 16 at
16-19, format tag 1 at 20-21, channel count 1 at 22-23, byte rate `r * 2` at
28-31, block align 2 at 32-33, bits per sample 16 at 34-35 and data size
`len pcm` at 40-43; in particular `pcmToWav [0, 1] 24000` is a 46-byte
buffer whose bytes 40-43 read 2. -/
theorem C4_wav_header_fields (pcm : List Nat) (r : Nat)
    (h1 : 36 + pcm.length < 4294967296) (h2 : r * 2 < 4294967296) :
    readLE32 (pcmToWav pcm r) 4 = 36 + pcm.length ∧
    readLE32 (pcmToWav pcm r) 16 = 16 ∧
    readLE16 (pcmToWav pcm r) 20 = 1 ∧
    readLE16 (pcmToWav pcm r) 22 = 1 ∧
    readLE32 (pcmToWav pcm r) 28 = r * 2 ∧
    readLE16 (pcmToWav pcm r) 32 = 2 ∧
    readLE16 (pcmToWav pcm r) 34 = 16 ∧
    readLE32 (pcmToWav pcm r) 40 = pcm.length ∧
    (pcmToWav [0, 1] 24000).length = 46 ∧
    readLE32 (pcmToWav [0, 1] 24000) 40 = 2 := by
  have e4 : readLE32 (pcmToWav pcm r) 4 =
      (36 + pcm.length) % 256 + 256 * ((36 + pcm.length) / 256 % 256) +
      65536 * ((36 + pcm.length) / 65536 % 256) +
      16777216 * ((36 + pcm.length) / 16777216 % 256) := by
    simp only [pcmToWav]; rw [wavHeader_cons]; rfl
  have e28 : readLE32 (pcmToWav pcm r) 28 =
      r * 2 % 256 + 256 * (r * 2 / 256 % 256) +
      65536 * (r * 2 / 65536 % 256) + 16777216 * (r * 2 / 16777216 % 256) := by
    simp only [pcmToWav]; rw [wavHeader_cons]; rfl
  have e40 : readLE32 (pcmToWav pcm r) 40 =
      pcm.length % 256 + 256 * (pcm.length / 256 % 256) +
      65536 * (pcm.length / 65536 % 256) +
      16777216 * (pcm.length / 16777216 % 256) := by
    simp only [pcmToWav]; rw [wavHeader_cons]; rfl
  refine ⟨?_, ?_, ?_, ?_, ?_, ?_, ?_, ?_, by decide, by decide⟩
  · rw [e4]; exact le32_read _ h1
  · simp only [pcmToWav]; rw [wavHeader_cons]; rfl
  · simp only [pcmToWav]; rw [wavHeader_cons]; rfl
  · simp only [pcmToWav]; rw [wavHeader_cons]; rfl
  · rw [e28]; exact le32_read _ h2
  · simp only [pcmToWav]; rw [wavHeader_cons]; rfl
  · simp only [pcmToWav]; rw [wavHeader_cons]; rfl
  · rw [e40]; exact le32_read _ (by omega)

theorem C4_wav_header_fields_witness :
    36 + ([0, 1] : List Nat).length < 4294967296 ∧
    24000 * 2 < 4294967296 ∧
    readLE32 (pcmToWav [0, 1] 24000) 40 = ([0, 1] : List Nat).length :=
  ⟨by decide, by decide,
    (C4_wav_header_fields [0, 1] 24000 (by decide) (by decide)).2.2.2.2.2.2.2.1⟩

/-- C5: `pcmToWav(pcm, r)` is exactly the fixed 44-byte header followed by
the PCM payload unchanged: the total length is `44 + len pcm` and dropping
the first 44 bytes recovers `pcm`. -/
theorem C5_wav_layout (pcm : List Nat) (r : Nat) :
    pcmToWav pcm r = wavHeader pcm.length r ++ pcm ∧
    (wavHeader pcm.length r).length = 44 ∧
    (pcmToWav pcm r).length = 44 + pcm.length ∧
    (pcmToWav pcm r).drop 44 = pcm := by
  refine ⟨rfl, wavHeader_length _ _, ?_, ?_⟩
  · simp [pcmToWav, wavHeader_length]
  · have h := wavHeader_length pcm.length r
    rw [pcmToWav, ← h]
    exact List.drop_left _ _

/-- C6: `pcmToWav` is deterministic: two runs on equal (bytes, sampleRate)
inputs produce byte-identical output. -/
theorem C6_pcmToWav_deterministic (b1 b2 : List Nat) (r1 r2 : Nat)
    (hb : b1 = b2) (hr : r1 = r2) : pcmToWav b1 r1 = pcmToWav b2 r2 := by
  rw [hb, hr]

theorem C6_pcmToWav_deterministic_witness :
    ([0, 1] : List Nat) = [0, 1] ∧ (24000 : Nat) = 24000 ∧
    pcmToWav [0, 1] 24000 = pcmToWav [0, 1] 24000 :=
  ⟨rfl, rfl, C6_pcmToWav_deterministic [0, 1] [0, 1] 24000 24000 rfl rfl⟩

/-- C7: `pcmToWav` is total with no error path: for every byte array and
every sample rate it produces a well-formed byte buffer (every output entry
is a byte) of length `44 + len pcm`. -/
theorem C7_pcmToWav_total (pcm : List Nat) (r : Nat)
    (hb : ∀ b ∈ pcm, b < 256) :
    (pcmToWav pcm r).length = 44 + pcm.length ∧
    ∀ b ∈ pcmToWav pcm r, b < 256 := by
  constructor
  · simp [pcmToWav, wavHeader_length]
  · intro b hbm
    rw [pcmToWav] at hbm
    rcases List.mem_append.mp hbm with h | h
    · exact wavHeader_bytes_lt _ _ b h
    · exact hb b h

theorem C7_pcmToWav_total_witness :
    (∀ b ∈ ([0, 1] : List Nat), b < 256) ∧
    ((pcmToWav [0, 1] 24000).length = 44 + ([0, 1] : List Nat).length ∧
     ∀ b ∈ pcmToWav [0, 1] 24000, b < 256) :=
  ⟨by decide, C7_pcmToWav_total [0, 1] 24000 (by decide)⟩

/-! ## Concrete poll scenarios -/

/-- A still-running operation: not done, no error, no result. -/
def runningOp : Operation := ⟨false, none, none⟩

/-- A finished operation carrying a video URI. -/
def doneOp (uri : String) : Operation := ⟨true, none, some uri⟩

/-- A not-done poll response whose error field is already set. -/
def earlyErrOp : Operation := ⟨false, some ⟨some "boom"⟩, none⟩

/-- A done poll response whose error field is set. -/
def lateErrOp : Operation := ⟨true, some ⟨some "late boom"⟩, none⟩

/-- Scenario: the first poll response carries an error but is not done, the
second is done with a result. -/
def pollSeqA : Nat → Except String Operation
  | 0 => .ok earlyErrOp
  | 1 => .ok (doneOp "http://video/1?alt=media")
  | _ => .error "no more responses"

/-- Scenario: the single poll response is done and carries an error. -/
def pollSeqB : Nat → Except String Operation
  | 0 => .ok lateErrOp
  | _ => .error "no more responses"

/-- Scenario: two not-done responses, then done with URI `uri`. -/
def pollSeqC (uri : String) : Nat → Except String Operation
  | 0 => .ok runningOp
  | 1 => .ok runningOp
  | 2 => .ok (doneOp uri)
  | _ => .error "no more responses"

/-- Scenario: the single poll response is done with a URI. -/
def pollSeqD : Nat → Except String Operation
  | 0 => .ok (doneOp "http://v")
  | _ => .error "no more responses"

/-! ## Claim theorems: poll loop -/

/-- C1 counterexample: with an error field set on a not-done poll response
(`pollSeqA`), the loop does not terminate with that error: it keeps polling
(2 poll calls) and resolves successfully with the later result. -/
theorem C1_counterexample :
    runResult (generateVeoVideo (some "k") none (.ok runningOp) pollSeqA 10) =
      some (.ok ((("http://video/1?alt=media").append "&key=").append "k")) ∧
    Option.map countPolls
      (runEvents (generateVeoVideo (some "k") none (.ok runningOp) pollSeqA 10)) =
      some 2 := by
  exact ⟨rfl, rfl⟩

/-- C1 (amended): the loop inspects the error field only once the done flag
is set: if the operation returned by the terminating poll (done) has its
error field set, `generateVeoVideo` rejects with that error message
(defaulting to "Video generation failed") and the trace ends with the loop
events, so no poll call follows the errored response. -/
theorem C1_error_checked_when_done (apiKey envKey : Option String)
    (submit : Except String Operation) (poll : Nat → Except String Operation)
    (fuel : Nat) (op0 opF : Operation) (evs : List Event) (err : OpErr)
    (k : String)
    (hk : truthy (jsOr apiKey envKey) = some k)
    (hs : submit = .ok op0)
    (hl : pollLoop poll fuel 0 op0 = some (.ok opF, evs))
    (he : opF.error = some err) :
    generateVeoVideo apiKey envKey submit poll fuel =
      some (.error ((truthy err.message).getD "Video generation failed"),
            preLoop ++ evs) := by
  simp [generateVeoVideo, getAiClient, hk, hs, hl, he]

theorem C1_error_checked_when_done_witness :
    truthy (jsOr (some "k") none) = some "k" ∧
    (Except.ok runningOp : Except String Operation) = .ok runningOp ∧
    pollLoop pollSeqB 5 0 runningOp = some (.ok lateErrOp, loopBlock) ∧
    lateErrOp.error = some ⟨some "late boom"⟩ ∧
    generateVeoVideo (some "k") none (.ok runningOp) pollSeqB 5 =
      some (.error ((truthy (some "late boom")).getD "Video generation failed"),
            preLoop ++ loopBlock) :=
  ⟨rfl, rfl, rfl, rfl,
    C1_error_checked_when_done (some "k") none (.ok runningOp) pollSeqB 5
      runningOp lateErrOp loopBlock ⟨some "late boom"⟩ "k" rfl rfl rfl rfl⟩

/-- C2 counterexample: on the claimed scenario (not-done handle, then
[not-done, not-done, done(result)]) the loop does make exactly 3 poll calls,
but it resolves with the URI plus "&key=" and the key, not with the result
URI itself. -/
theorem C2_counterexample :
    runResult (generateVeoVideo (some "k") none (.ok runningOp) (pollSeqC "u") 5) =
      some (.ok "u&key=k") ∧
    Option.map countPolls
      (runEvents (generateVeoVideo (some "k") none (.ok runningOp) (pollSeqC "u") 5)) =
      some 3 ∧
    "u&key=k" ≠ "u" := by
  exact ⟨rfl, rfl, by decide⟩

/-- C2 (amended): for a submission returning a not-done handle and poll
responses [not-done, not-done, done(result with truthy URI `uri`)], the loop
makes exactly 3 poll calls and resolves with `uri` plus "&key=" and the
effective key (an empty result URI would instead fail the falsy `!videoUri`
check). -/
theorem C2_three_polls_then_resolve (uri : String) (h : uri ≠ "") :
    runResult (generateVeoVideo (some "k") none (.ok runningOp) (pollSeqC uri) 5) =
      some (.ok (uri ++ "&key=" ++ "k")) ∧
    Option.map countPolls
      (runEvents (generateVeoVideo (some "k") none (.ok runningOp) (pollSeqC uri) 5)) =
      some 3 := by
  have hk : truthy (jsOr (some "k") none) = some "k" := rfl
  have hl : pollLoop (pollSeqC uri) 5 0 runningOp =
      some (.ok (doneOp uri), loopBlock ++ (loopBlock ++ (loopBlock ++ []))) := rfl
  have hu : truthy (some uri) = some uri := by
    simp [truthy, h]
  constructor
  · have hrun : runResult
        (generateVeoVideo (some "k") none (.ok runningOp) (pollSeqC uri) 5) =
        some (.ok (uri ++ "&key=" ++ stringify (jsOr (some "k") none))) := by
      simp [runResult, generateVeoVideo, getAiClient, hk, hl, doneOp, hu]
    rw [hrun]
    rfl
  · have hev : runEvents
        (generateVeoVideo (some "k") none (.ok runningOp) (pollSeqC uri) 5) =
        some (preLoop ++ (loopBlock ++ (loopBlock ++ (loopBlock ++ [])))) := by
      simp [runEvents, generateVeoVideo, getAiClient, hk, hl, doneOp, hu]
    rw [hev]
    rfl

theorem C2_three_polls_then_resolve_witness :
    ("u" : String) ≠ "" ∧
    (runResult (generateVeoVideo (some "k") none (.ok runningOp) (pollSeqC "u") 5) =
      some (.ok ("u" ++ "&key=" ++ "k")) ∧
     Option.map countPolls
       (runEvents (generateVeoVideo (some "k") none (.ok runningOp) (pollSeqC "u") 5)) =
       some 3) :=
  ⟨by decide, C2_three_polls_then_resolve "u" (by decide)⟩

/-- C3 counterexample: a successful run (submit, one poll that is done with a
URI) whose full trace is `preLoop ++ loopBlock`: the last event is the poll
call, so no progress callback — in particular no done event — is emitted
after the loop terminates. -/
theorem C3_counterexample :
    runEvents (generateVeoVideo (some "k") none (.ok runningOp) pollSeqD 5) =
      some (preLoop ++ loopBlock) ∧
    runResult (generateVeoVideo (some "k") none (.ok runningOp) pollSeqD 5) =
      some (.ok ((("http://v").append "&key=").append "k")) ∧
    (preLoop ++ loopBlock).getLast? = some .pollCall := by
  exact ⟨rfl, rfl, rfl⟩

/-- C3 (amended): whenever the loop settles, the full trace is the progress
callback at submission, the submit call, the progress callback before the
first wait, then some number of [wait, progress, poll] iterations — progress
is emitted at submission and around every wait, and nothing (in particular
no done progress event) is emitted after the loop terminates. -/
theorem C3_trace_shape (apiKey envKey : Option String)
    (submit : Except String Operation) (poll : Nat → Except String Operation)
    (fuel : Nat) (op0 : Operation) (r : Except String Operation)
    (evs : List Event) (k : String)
    (hk : truthy (jsOr apiKey envKey) = some k)
    (hs : submit = .ok op0)
    (hl : pollLoop poll fuel 0 op0 = some (r, evs)) :
    runEvents (generateVeoVideo apiKey envKey submit poll fuel) =
      some (preLoop ++ evs) ∧
    ∃ n, evs = (List.replicate n loopBlock).flatten := by
  refine ⟨?_, pollLoop_trace poll fuel 0 op0 r evs hl⟩
  rcases r with e | opF
  · simp [runEvents, generateVeoVideo, getAiClient, hk, hs, hl]
  · rcases ho : opF.error with _ | err
    · rcases hu : truthy opF.videoUri with _ | uri <;>
        simp [runEvents, generateVeoVideo, getAiClient, hk, hs, hl, ho, hu]
    · simp [runEvents, generateVeoVideo, getAiClient, hk, hs, hl, ho]

theorem C3_trace_shape_witness :
    truthy (jsOr (some "k") none) = some "k" ∧
    (Except.ok runningOp : Except String Operation) = .ok runningOp ∧
    pollLoop pollSeqD 5 0 runningOp = some (.ok (doneOp "http://v"), loopBlock) ∧
    (runEvents (generateVeoVideo (some "k") none (.ok runningOp) pollSeqD 5) =
      some (preLoop ++ loopBlock) ∧
     ∃ n, loopBlock = (List.replicate n loopBlock).flatten) :=
  ⟨rfl, rfl, rfl,
    C3_trace_shape (some "k") none (.ok runningOp) pollSeqD 5 runningOp
      (.ok (doneOp "http://v")) loopBlock "k" rfl rfl rfl⟩

/-- A done operation with neither error nor result URI. -/
def doneNoUriOp : Operation := ⟨true, none, none⟩

/-- A poll oracle that always answers with a successful done response. -/
def allOkPoll : Nat → Except String Operation := fun _ => .ok (doneOp "http://v")

/-- A poll oracle that is never reached. -/
def noPoll : Nat → Except String Operation := fun _ => .error "unused"

/-- A provider response with no inline audio data. -/
def okNoneContent : Except String (Option String) := .ok none

/-- A stand-in for the external `atob` primitive. -/
def atobModel : String → String := id

/-- A stand-in for the external `URL.createObjectURL` primitive. -/
def urlModel : List Nat → String := fun bs => toString bs.length

lemma truthy_some (o : Option String) (k : String) (h : truthy o = some k) :
    o = some k := by
  cases o with
  | none => simp [truthy] at h
  | some s =>
    by_cases hs : s = ""
    · simp [truthy, hs] at h
    · simp [truthy, hs] at h
      rw [h]

/-- C8 counterexample: with no explicit and no environment key but an
entirely well-behaved provider (submit succeeds, every poll succeeds, the
done operation carries a URI and no error field), `generateVeoVideo` still
fails — with the key error, which is none of the four taxonomy cases. -/
theorem C8_counterexample :
    runResult (generateVeoVideo none none (.ok (doneOp "http://v")) allOkPoll 1) =
      some (.error keyErrorMsg) ∧
    runEvents (generateVeoVideo none none (.ok (doneOp "http://v")) allOkPoll 1) =
      some [] ∧
    (doneOp "http://v").error = none ∧
    (doneOp "http://v").videoUri = some "http://v" ∧
    keyErrorMsg ≠ "Video generation failed" ∧
    keyErrorMsg ≠ "No video URI returned from the API." := by
  exact ⟨rfl, rfl, rfl, rfl, by decide, by decide⟩

/-- C8 (amended): when an API key is available, every failure of
`generateVeoVideo` is one of the four taxonomy cases — submission threw
(error forwarded verbatim), a poll call threw (error forwarded verbatim),
the completed operation carries an error field (its message forwarded, with
the default when absent), or the job is done with no truthy result URI (the
falsy check: absent or empty) — and each is terminal: the function settles
once, with no retry. -/
theorem C8_failure_taxonomy (apiKey envKey : Option String)
    (submit : Except String Operation) (poll : Nat → Except String Operation)
    (fuel : Nat) (e : String) (k : String)
    (hk : truthy (jsOr apiKey envKey) = some k)
    (hfail : runResult (generateVeoVideo apiKey envKey submit poll fuel) =
      some (.error e)) :
    submit = .error e ∨
    (∃ i, poll i = .error e) ∨
    (∃ op0 opF evs err, submit = .ok op0 ∧
      pollLoop poll fuel 0 op0 = some (.ok opF, evs) ∧ opF.error = some err ∧
      e = (truthy err.message).getD "Video generation failed") ∨
    (∃ op0 opF evs, submit = .ok op0 ∧
      pollLoop poll fuel 0 op0 = some (.ok opF, evs) ∧ opF.error = none ∧
      truthy opF.videoUri = none ∧
      e = "No video URI returned from the API.") := by
  rcases hsub : submit with e2 | op0
  · subst hsub
    left
    simp [runResult, generateVeoVideo, getAiClient, hk] at hfail
    rw [hfail]
  · subst hsub
    rcases hl : pollLoop poll fuel 0 op0 with _ | ⟨r, evs⟩
    · simp [runResult, generateVeoVideo, getAiClient, hk, hl] at hfail
    · rcases r with e2 | opF
      · right; left
        simp [runResult, generateVeoVideo, getAiClient, hk, hl] at hfail
        obtain ⟨i, hi⟩ := pollLoop_error poll fuel 0 op0 e2 evs hl
        exact ⟨i, by rw [hi, hfail]⟩
      · rcases ho : opF.error with _ | err
        · rcases hu : truthy opF.videoUri with _ | uri
          · right; right; right
            simp [runResult, generateVeoVideo, getAiClient, hk, hl, ho, hu] at hfail
            exact ⟨op0, opF, evs, rfl, hl, ho, hu, hfail.symm⟩
          · simp [runResult, generateVeoVideo, getAiClient, hk, hl, ho, hu] at hfail
        · right; right; left
          simp [runResult, generateVeoVideo, getAiClient, hk, hl, ho] at hfail
          exact ⟨op0, opF, evs, err, rfl, hl, ho, hfail.symm⟩

theorem C8_failure_taxonomy_witness :
    truthy (jsOr (some "k") none) = some "k" ∧
    runResult (generateVeoVideo (some "k") none (.ok doneNoUriOp) noPoll 1) =
      some (.error "No video URI returned from the API.") ∧
    ((Except.ok doneNoUriOp : Except String Operation) =
        .error "No video URI returned from the API." ∨
     (∃ i, noPoll i = .error "No video URI returned from the API.") ∨
     (∃ op0 opF evs err, (Except.ok doneNoUriOp : Except String Operation) = .ok op0 ∧
       pollLoop noPoll 1 0 op0 = some (.ok opF, evs) ∧ opF.error = some err ∧
       "No video URI returned from the API." =
         (truthy err.message).getD "Video generation failed") ∨
     (∃ op0 opF evs, (Except.ok doneNoUriOp : Except String Operation) = .ok op0 ∧
       pollLoop noPoll 1 0 op0 = some (.ok opF, evs) ∧ opF.error = none ∧
       truthy opF.videoUri = none ∧
       "No video URI returned from the API." =
         "No video URI returned from the API.")) :=
  ⟨rfl, rfl,
    C8_failure_taxonomy (some "k") none (.ok doneNoUriOp) noPoll 1
      "No video URI returned from the API." "k" rfl rfl⟩

/-- C9: a successful `generateVeoVideo` run does not return the provider URI
itself: it returns the URI with "&key=" and the effective key (the truthy
explicit key, else the environment key) appended, so the secret key is
embedded in the returned URL.  A successful run is one whose completed
operation has no error field and a truthy (non-empty) video URI. -/
theorem C9_key_appended (apiKey envKey : Option String)
    (submit : Except String Operation) (poll : Nat → Except String Operation)
    (fuel : Nat) (op0 opF : Operation) (evs : List Event) (uri k : String)
    (hk : truthy (jsOr apiKey envKey) = some k)
    (hs : submit = .ok op0)
    (hl : pollLoop poll fuel 0 op0 = some (.ok opF, evs))
    (he : opF.error = none) (hu : truthy opF.videoUri = some uri) :
    runResult (generateVeoVideo apiKey envKey submit poll fuel) =
      some (.ok (uri ++ "&key=" ++ k)) ∧
    uri ++ "&key=" ++ k ≠ uri := by
  have hj : jsOr apiKey envKey = some k := truthy_some _ _ hk
  constructor
  · have hrun : runResult (generateVeoVideo apiKey envKey submit poll fuel) =
        some (.ok (uri ++ "&key=" ++ stringify (jsOr apiKey envKey))) := by
      simp [runResult, generateVeoVideo, getAiClient, hk, hs, hl, he, hu]
    rw [hrun, hj]
    rfl
  · intro hEq
    have hlen := congrArg String.length hEq
    rw [String.length_append, String.length_append] at hlen
    have h5 : ("&key=" : String).length = 5 := rfl
    omega

theorem C9_key_appended_witness :
    truthy (jsOr (some "k") none) = some "k" ∧
    (Except.ok runningOp : Except String Operation) = .ok runningOp ∧
    pollLoop pollSeqD 5 0 runningOp = some (.ok (doneOp "http://v"), loopBlock) ∧
    (doneOp "http://v").error = none ∧
    truthy (doneOp "http://v").videoUri = some "http://v" ∧
    (runResult (generateVeoVideo (some "k") none (.ok runningOp) pollSeqD 5) =
      some (.ok ("http://v" ++ "&key=" ++ "k")) ∧
     "http://v" ++ "&key=" ++ "k" ≠ "http://v") :=
  ⟨rfl, rfl, rfl, rfl, rfl,
    C9_key_appended (some "k") none (.ok runningOp) pollSeqD 5 runningOp
      (doneOp "http://v") loopBlock "http://v" "k" rfl rfl rfl rfl rfl⟩

/-- C10: when neither the explicit key argument nor the environment key is
present (truthy), each exported generation operation rejects with the key
error and an empty trace: no provider request is issued and no progress
callback is emitted. -/
theorem C10_key_checked_first (apiKey envKey : Option String) (input : String)
    (gc1 gc2 gc3 : Except String (Option String))
    (atobFn : String → String) (createURL : List Nat → String)
    (submit : Except String Operation) (poll : Nat → Except String Operation)
    (fuel : Nat)
    (ha : truthy apiKey = none) (hb : truthy envKey = none) :
    enhancePrompt apiKey envKey input gc1 = (.error keyErrorMsg, []) ∧
    generateVeoVideo apiKey envKey submit poll fuel =
      some (.error keyErrorMsg, []) ∧
    generateTextToSpeech apiKey envKey gc2 atobFn createURL =
      (.error keyErrorMsg, []) ∧
    generateClonedSpeech apiKey envKey gc3 atobFn createURL =
      (.error keyErrorMsg, []) := by
  have hg : getAiClient apiKey envKey = .error keyErrorMsg := by
    simp [getAiClient, jsOr, ha, hb]
  simp [enhancePrompt, generateVeoVideo, generateTextToSpeech,
    generateClonedSpeech, hg]

theorem C10_key_checked_first_witness :
    truthy none = none ∧ truthy none = none ∧
    (enhancePrompt none none "hello" okNoneContent = (.error keyErrorMsg, []) ∧
     generateVeoVideo none none (.ok runningOp) noPoll 1 =
       some (.error keyErrorMsg, []) ∧
     generateTextToSpeech none none okNoneContent atobModel urlModel =
       (.error keyErrorMsg, []) ∧
     generateClonedSpeech none none okNoneContent atobModel urlModel =
       (.error keyErrorMsg, [])) :=
  ⟨rfl, rfl,
    C10_key_checked_first none none "hello" okNoneContent okNoneContent
      okNoneContent atobModel urlModel (.ok runningOp) noPoll 1 rfl rfl⟩

end VeoStudio
